import Mathlib

set_option maxHeartbeats 1000000

/-!
Verification development for the Sentinel triage pipeline.

Shallow embedding of:
- `src/api/src/Services/agents/FraudAgent.ts` (deterministic fraud scoring engine),
- `src/api/src/Services/guardrails.ts` (`withTimeout` combinator),
- the `TriageOrchestrator` (`run`, `runAgent`, `traceStep`, `finalizeRun`).

Conventions of the embedding:
- JS timestamps (`Date.getTime()`, `Date.now()`) are `Int` epoch milliseconds.
- JS number arithmetic on integer cent amounts is `Int`; the one division
  (`avgAmount` in the subscription rule) is modelled exactly over `Rat`.
- Asynchronous settlement is modelled by `FnBehavior`: a stage function either
  fulfils at a time, rejects at a time, or hangs forever.
- `(alertTxn as any).metadata?.simulate_risk_timeout` is modelled as the
  Boolean field `simulate_risk_timeout` of a transaction.
-/

namespace Sentinel

/-- JS `String.prototype.includes` on explicit character lists. -/
def containsSub : List Char → List Char → Bool
  | [], pat => pat.isEmpty
  | c :: rest, pat => pat.isPrefixOf (c :: rest) || containsSub rest pat

/-- JS `a.includes(b)` for strings. -/
def strContains (s pat : String) : Bool :=
  containsSub s.data pat.data

/-- JS `toUpperCase` (ASCII, as all merchant fragments are ASCII). -/
def strUpper (s : String) : String := ⟨s.data.map Char.toUpper⟩

/-- JS `toLowerCase` (ASCII). -/
def strLower (s : String) : String := ⟨s.data.map Char.toLower⟩

/-- JS `a.startsWith(b)`. -/
def strStartsWith (s pat : String) : Bool := pat.data.isPrefixOf s.data

/-- A row of the `Transaction` table (the fields `FraudAgent` and the
orchestrator read).  `ts` is epoch milliseconds; `simulate_risk_timeout`
models the `metadata.simulate_risk_timeout` test flag. -/
structure Transaction where
  id : String
  mcc : String
  merchant : String
  amount_cents : Int
  ts : Int
  device_id : Option String
  country : String
  simulate_risk_timeout : Bool
deriving DecidableEq

/-- A row of the `Customer` table (only the identity is consumed). -/
structure Customer where
  id : String
deriving DecidableEq

/-- A row of the `Case` table (dispute/chargeback history). -/
structure Case where
  type : String
  created_at : Int
deriving DecidableEq

/-- `FraudReport.score` values. -/
inductive Score where
  | LOW
  | MEDIUM
  | HIGH
deriving DecidableEq

/-- `FraudReport.recommendedAction` values. -/
inductive Action where
  | FREEZE_CARD
  | OPEN_DISPUTE
  | NONE
deriving DecidableEq

/-- Output shape of the fraud scoring engine (`FraudReport` in
`FraudAgent.ts`). -/
structure FraudReport where
  score : Score
  reasons : List String
  recommendedAction : Option Action
  reasonCode : Option String
  fallback_used : Option Bool
deriving DecidableEq

/-- Rule 2 velocity counts: transactions with `ts` in `[now - win, now]`. -/
def countInWindow (txs : List Transaction) (now win : Int) : Nat :=
  (txs.filter (fun t => decide (t.ts ≥ now - win ∧ t.ts ≤ now))).length

/-- 5-minute velocity count (rule 2a). -/
def count5m (txs : List Transaction) (now : Int) : Nat :=
  countInWindow txs now (5 * 60 * 1000)

/-- 1-hour velocity count (rule 2b). -/
def count1h (txs : List Transaction) (now : Int) : Nat :=
  countInWindow txs now (60 * 60 * 1000)

/-- 24-hour velocity count (rule 2c). -/
def count24h (txs : List Transaction) (now : Int) : Nat :=
  countInWindow txs now (24 * 60 * 60 * 1000)

/-- Country frequency table built in first-seen order (JS `Map` preserves
insertion order). -/
def countryCounts (txs : List Transaction) : List (String × Nat) :=
  txs.foldl
    (fun acc t =>
      if acc.any (fun p => p.1 == t.country) then
        acc.map (fun p => if p.1 == t.country then (p.1, p.2 + 1) else p)
      else acc ++ [(t.country, 1)])
    []

/-- `homeCountry`: most frequent country of the window, ties broken in
first-seen order (stable JS sort), defaulting to `"IN"`. -/
def homeCountry (txs : List Transaction) : String :=
  match (countryCounts txs).foldl
      (fun best p =>
        match best with
        | none => some p
        | some b => if p.2 > b.2 then some p else some b)
      none with
  | some b => b.1
  | none => "IN"

/-- Rule 3: the subject device differs from a uniform run of one device id
over the five most recent prior transactions. -/
def deviceChangeSuspected (txs : List Transaction) (alertTxn : Transaction) : Bool :=
  let recentDevices :=
    ((txs.filter (fun t => decide (t.ts < alertTxn.ts))).take 5).filterMap
      (fun t => t.device_id)
  match alertTxn.device_id, recentDevices with
  | some d, typical :: rest =>
      d != "" && d != typical && (typical :: rest).all (fun x => x == typical)
  | _, _ => false

/-- Rule 4: distinct countries of the trailing 24h (JS `Set`, insertion
order) together with the subject's country. -/
def countries24h (txs : List Transaction) (alertTxn : Transaction) : List String :=
  let base :=
    ((txs.filter (fun t =>
        decide (t.ts ≥ alertTxn.ts - 24 * 60 * 60 * 1000 ∧ t.ts ≤ alertTxn.ts))).map
      (fun t => t.country)).eraseDups
  if alertTxn.country ∈ base then base else base ++ [alertTxn.country]

/-- Rule 5: the fixed high-risk MCC denylist. -/
def riskyMCC (mcc : String) : Option String :=
  if mcc == "7995" then some "Gambling"
  else if mcc == "7800" then some "Government-owned lottery"
  else if mcc == "5967" then some "Direct marketing - inbound telemarketing"
  else none

/-- Rule 7: `DISPUTE` cases created within the trailing 90 days of the
current wall clock (`Date.now()` in the source, passed here as `wallNow`). -/
def recentDisputeCount (hist : List Case) (wallNow : Int) : Nat :=
  (hist.filter (fun c =>
      c.type == "DISPUTE" && decide (c.created_at > wallNow - 90 * 24 * 60 * 60 * 1000))).length

/-- Rule 8: prior transactions at the subject's merchant. -/
def merchantHistory (txs : List Transaction) (m : String) : List Transaction :=
  txs.filter (fun t => t.merchant == m)

/-- Rule 8: the subject amount is within 10% of the merchant-history mean.
Exact-arithmetic model of `Math.abs(amount - total/n) < (total/n) * 0.1`:
for `n > 0` (the caller guards `n ≥ 2`) multiplying both sides by the
positive `10 * n` gives `10 * |amount * n - total| < total`, which is the
form used here; a non-positive mean makes both false. -/
def isRecurringCharge (txs : List Transaction) (alertTxn : Transaction) : Bool :=
  let mh := merchantHistory txs alertTxn.merchant
  let total : Int := mh.foldl (fun s t => s + t.amount_cents) 0
  let n : Int := (mh.length : Int)
  decide (10 * ((alertTxn.amount_cents * n - total).natAbs : Int) < total)

/-- Rule 9: the fixed payment-intermediary name fragments. -/
def ambiguousMerchants : List String :=
  ["PAYPAL", "SQUARE", "STRIPE", "VENMO", "*TEMP*", "PENDING"]

/-- Rule 9 trigger: the upper-cased merchant contains a fragment. -/
def ambiguousMerchant (m : String) : Bool :=
  ambiguousMerchants.any (fun am => strContains (strUpper m) am)

/-- One scoring rule: push the reason and add the points when it fires. -/
def addRule (acc : Nat × List String) (fire : Bool) (pts : Nat) (reason : String) :
    Nat × List String :=
  if fire then (acc.1 + pts, acc.2 ++ [reason]) else acc

/-- The nine-rule tally of `FraudAgent.analyze` (everything between the
timeout short-circuit and the final thresholding): accumulated integer score
plus the reasons in rule-evaluation order, ending with the "No issues found."
sentinel when no rule pushed a reason. -/
def analyzeCore (txs : List Transaction) (alertTxn : Transaction)
    (hist : List Case) (wallNow : Int) : Nat × List String :=
  let now := alertTxn.ts
  let home := homeCountry txs
  let r1 := addRule (0, []) (decide (alertTxn.amount_cents > 100000)) 30
    "High transaction amount"
  let n5 := count5m txs now
  let r2a := addRule r1 (decide (n5 > 3)) 50 s!"High velocity attack: {n5} txns in 5 min"
  let n1h := count1h txs now
  let r2b := addRule r2a (decide (n1h > 10)) 35 s!"High velocity: {n1h} txns in 1 hour"
  let n24 := count24h txs now
  let r2c := addRule r2b (decide (n24 > 30)) 20 s!"Unusual daily velocity: {n24} txns today"
  let r3 := addRule r2c (deviceChangeSuspected txs alertTxn) 35
    "New device detected - potential account takeover risk"
  let cs := countries24h txs alertTxn
  let nCountries := cs.length
  let csList := String.intercalate ", " cs
  let r4 := addRule r3 (decide (nCountries ≥ 3)) 40
    s!"Foreign transactions in {nCountries} countries within 24h: {csList}"
  let r5 :=
    match riskyMCC alertTxn.mcc with
    | some nm => (r4.1 + 25, r4.2 ++ [s!"Unusual MCC: {nm}"])
    | none => r4
  let ctry := alertTxn.country
  let r6 := addRule r5 (decide (ctry ≠ home)) 20 s!"Foreign transaction: {ctry}"
  let nCb := recentDisputeCount hist wallNow
  let r7 :=
    if hist.length > 0 then
      if nCb ≥ 3 then (r6.1 + 40, r6.2 ++ [s!"Customer has {nCb} chargebacks in last 90 days"])
      else if nCb > 0 then
        (r6.1 + 15, r6.2 ++ [s!"Customer has chargeback history ({nCb} cases)"])
      else r6
    else r6
  let mh := merchantHistory txs alertTxn.merchant
  let merch := alertTxn.merchant
  let r8 :=
    if mh.length ≥ 2 then
      if isRecurringCharge txs alertTxn && decide (mh.length ≥ 3) then
        (r7.1, r7.2 ++ [s!"Potential subscription charge from {merch}"])
      else r7
    else r7
  let r9 := addRule r8 (ambiguousMerchant alertTxn.merchant) 15
    "Ambiguous merchant name - difficult to verify legitimacy"
  if r9.2.isEmpty then (r9.1, ["No issues found."]) else r9

/-- The consultation of the subscription heuristic in the LOW branch:
`reasons.some(r => r.includes('subscription'))`. -/
def isLikelySubscriptionFlag (reasons : List String) : Bool :=
  reasons.any (fun r => strContains r "subscription")

/-- The final thresholding of `FraudAgent.analyze` (`--- Final Score &
Action ---`). -/
def finalReport (score : Nat) (reasons : List String) (alertTxn : Transaction) :
    FraudReport :=
  if score ≥ 60 then
    { score := .HIGH, reasons := reasons, recommendedAction := some .FREEZE_CARD,
      reasonCode := none, fallback_used := none }
  else if score ≥ 30 then
    { score := .MEDIUM, reasons := reasons,
      recommendedAction :=
        some (if alertTxn.amount_cents > 100000 ∨ score ≥ 40 then .OPEN_DISPUTE
          else .FREEZE_CARD),
      reasonCode := some "10.4", fallback_used := none }
  else
    { score := .LOW, reasons := reasons,
      recommendedAction :=
        some (if isLikelySubscriptionFlag reasons then .OPEN_DISPUTE else .NONE),
      reasonCode := if isLikelySubscriptionFlag reasons then some "13.7" else none,
      fallback_used := none }

/-- The rules-plus-thresholding path of `analyze` (taken when the
simulated-timeout flag is absent). -/
def analyzeReport (txs : List Transaction) (alertTxn : Transaction)
    (customer : Customer) (hist : List Case) (wallNow : Int) : FraudReport :=
  finalReport (analyzeCore txs alertTxn hist wallNow).1
    (analyzeCore txs alertTxn hist wallNow).2 alertTxn

/-- The report the engine itself returns on the `simulate_risk_timeout`
path, after its internal 100 ms rejected promise is caught. -/
def engineTimeoutFallback : FraudReport :=
  { score := .MEDIUM,
    reasons := ["Risk service unavailable - using fallback heuristics",
      "Transaction amount review recommended"],
    recommendedAction := some .OPEN_DISPUTE,
    reasonCode := none,
    fallback_used := some true }

/-- `FraudAgent.analyze`: returns the settlement delay in milliseconds
(100 ms on the simulated-timeout path, immediate otherwise) paired with the
report.  The `customer` argument is accepted, as in the source, but unused
by the rules. -/
def analyze (txs : List Transaction) (alertTxn : Transaction)
    (customer : Customer) (hist : List Case) (wallNow : Int) : Nat × FraudReport :=
  if alertTxn.simulate_risk_timeout then (100, engineTimeoutFallback)
  else (0, analyzeReport txs alertTxn customer hist wallNow)

/-!  Guardrail wrapper (`guardrails.ts`).  A stage function is modelled by
its settlement behaviour: it fulfils at a time, rejects at a time, or never
settles. -/

/-- Settlement behaviour of a stage promise. -/
inductive FnBehavior (T : Type) where
  | fulfils (t : Nat) (v : T)
  | rejects (t : Nat)
  | hangs

/-- The `resolve` calls made inside `withTimeout`'s executor, in
chronological order: the `ms` timer resolves the fallback unless the stage
settlement cleared it first; the stage's `then`/`catch` handler resolves the
result or the fallback.  A second entry is a call the promise ignores. -/
def resolveCalls {T : Type} (fb : FnBehavior T) (ms : Nat) (fallback : T) : List T :=
  match fb with
  | .fulfils t v => if t < ms then [v] else [fallback, v]
  | .rejects t => if t < ms then [fallback] else [fallback, fallback]
  | .hangs => [fallback]

/-- `withTimeout(fn, ms, fallback)`: the value the returned promise settles
with (the first `resolve` call wins). -/
def withTimeout {T : Type} (fb : FnBehavior T) (ms : Nat) (fallback : T) : T :=
  match fb with
  | .fulfils t v => if t < ms then v else fallback
  | .rejects _ => fallback
  | .hangs => fallback

/-- `withTimeout` paired with whether the fallback sentinel was substituted.
The Boolean models the `result === fallback` reference check in `runAgent`:
the sentinel object is referenced only when the timer fired or the stage
rejected, since a stage's own result is always a freshly built value. -/
def withTimeoutUsed {T : Type} (fb : FnBehavior T) (ms : Nat) (fallback : T) :
    T × Bool :=
  match fb with
  | .fulfils t v => if t < ms then (v, false) else (fallback, true)
  | .rejects _ => (fallback, true)
  | .hangs => (fallback, true)

/-- Duration `runAgent` observes for a guarded call: the settlement time,
capped by the timer. -/
def settleTime {T : Type} (fb : FnBehavior T) (ms : Nat) : Nat :=
  match fb with
  | .fulfils t _ => min t ms
  | .rejects t => min t ms
  | .hangs => ms

/-!  Triage orchestrator (`TriageOrchestrator`). -/

/-- A knowledge-base citation (`KBHit` in `KBAgent.ts`). -/
structure KBHit where
  docId : String
  title : String
  anchor : String
  extract : String
deriving DecidableEq

/-- The orchestrator's `finalDecision` shape. -/
structure Decision where
  action : Action
  reason : String
  reasonCode : Option String
  citations : List KBHit
  relatedTransactions : Option (List Transaction)
deriving DecidableEq

/-- Events dispatched to the SSE stream for a run. -/
inductive Event where
  | tool_update (step : String) (ok : Bool) (duration_ms : Nat)
  | decision_finalized (failed : Bool) (decision : Option Decision) (risk : Option Score)
deriving DecidableEq

/-- Whether an event is the terminal `decision_finalized` event. -/
def isFinalEvent : Event → Bool
  | .decision_finalized _ _ _ => true
  | _ => false

/-- One `AgentTrace` row written by `traceStep`. -/
structure TraceEntry where
  seq : Nat
  step : String
  ok : Bool
  duration_ms : Nat
deriving DecidableEq

/-- The observable per-run state: the orchestrator's own fields (`step`,
`fallbackUsed`, the `TriageState` facets) plus the externally visible
effects (trace rows, SSE events, KB queries issued, `ended_at` writes). -/
structure OrchState where
  step : Nat
  fallbackUsed : Bool
  traces : List TraceEntry
  events : List Event
  kbQueries : List String
  endedAtWrites : Nat
  fraudReport : Option FraudReport
  kbHits : List KBHit
  finalDecision : Option Decision
deriving DecidableEq

/-- Fresh orchestrator state for a run. -/
def OrchState.init : OrchState :=
  { step := 0, fallbackUsed := false, traces := [], events := [], kbQueries := [],
    endedAtWrites := 0, fraudReport := none, kbHits := [], finalDecision := none }

/-- Input context of a run plus the behaviour of the external knowledge
base: `kbSearch q` is how the promise `KBAgent.search(q)` settles. -/
structure RunInput where
  alertId : String
  suspectTxn : Option Transaction
  customer : Customer
  recentTx : List Transaction
  chargebackHistory : List Case
  wallNow : Int
  kbSearch : String → FnBehavior (List KBHit)

/-- `traceStep`: increment the per-run sequence counter and append the
trace row with `seq = step`. -/
def pushTrace (st : OrchState) (name : String) (ok : Bool) (dur : Nat) : OrchState :=
  { st with
      step := st.step + 1,
      traces := st.traces ++ [{ seq := st.step + 1, step := name, ok := ok, duration_ms := dur }] }

/-- Dispatch one SSE event. -/
def pushEvent (st : OrchState) (e : Event) : OrchState :=
  { st with events := st.events ++ [e] }

/-- `runAgent(stepName, fn, fallback)`: guard the call with a 1 s
`withTimeout`, mark the sticky fallback flag when the sentinel came back,
write the trace row, and dispatch the `tool_update` event.  (The source's
`catch` arm is unreachable here: `withTimeout` never rejects.) -/
def runAgentStep {T : Type} (st : OrchState) (name : String) (fb : FnBehavior T)
    (fallback : T) : T × OrchState :=
  let result := (withTimeoutUsed fb 1000 fallback).1
  let used := (withTimeoutUsed fb 1000 fallback).2
  let dur := settleTime fb 1000
  let st1 := if used then { st with fallbackUsed := true } else st
  let st2 := pushTrace st1 name (!used) dur
  let st3 := pushEvent st2 (.tool_update name (!used) dur)
  (result, st3)

/-- Stage 2's subject selection: `this.state.alert.suspect_txn ||
this.state.recentTx[0]`. -/
def subjectTxn (inp : RunInput) : Option Transaction :=
  match inp.suspectTxn with
  | some t => some t
  | none => inp.recentTx.head?

/-- The orchestrator-side stage-2 fallback report. -/
def riskFallback : FraudReport :=
  { score := .MEDIUM, reasons := ["risk_unavailable (fallback)"],
    recommendedAction := some .NONE, reasonCode := none, fallback_used := none }

/-- The report synthesized when no subject transaction is resolvable. -/
def noDataReport : FraudReport :=
  { score := .LOW, reasons := ["No transaction data available"],
    recommendedAction := some .NONE, reasonCode := none, fallback_used := none }

/-- The settlement behaviour of the `FraudAgent.analyze` promise for a
subject transaction: it fulfils with the engine's report after the engine's
own delay. -/
def fraudBehavior (inp : RunInput) (txn : Transaction) : FnBehavior FraudReport :=
  .fulfils (analyze inp.recentTx txn inp.customer inp.chargebackHistory inp.wallNow).1
    (analyze inp.recentTx txn inp.customer inp.chargebackHistory inp.wallNow).2

/-- The report stage 2 stores in `this.state.fraudReport` (the
`FraudReportSchema` check always succeeds on well-typed reports, so the
validation-failure fallback path is not reachable in this model). -/
def storedReport (inp : RunInput) : FraudReport :=
  match subjectTxn inp with
  | none => noDataReport
  | some txn => (withTimeoutUsed (fraudBehavior inp txn) 1000 riskFallback).1

/-- Stage 2 (`riskSignals`). -/
def stageRisk (inp : RunInput) (st : OrchState) : OrchState :=
  match subjectTxn inp with
  | none =>
      let st1 := { st with fraudReport := some noDataReport, fallbackUsed := true }
      pushTrace st1 "riskSignals" false 0
  | some txn =>
      let pr := runAgentStep st "riskSignals" (fraudBehavior inp txn) riskFallback
      let report := pr.1
      let st1 := { pr.2 with fraudReport := some report }
      if report.fallback_used = some true then { st1 with fallbackUsed := true } else st1

/-- The near-duplicate window scan (same merchant, amount within 100 cents,
different id), computed against the subject transaction.  The source
computes this twice — `duplicateTransactions` in stage 3 and
`relatedDuplicates` in stage 4 — from the same subject and formula. -/
def nearDuplicates (inp : RunInput) : List Transaction :=
  match subjectTxn inp with
  | none => []
  | some s =>
      inp.recentTx.filter (fun t =>
        t.merchant == s.merchant &&
        decide ((t.amount_cents - s.amount_cents).natAbs < 100) &&
        t.id != s.id)

/-- Stage 3's merchant query: `this.state.alert.suspect_txn?.merchant`,
issued only when truthy (present and non-empty). -/
def alertMerchantQuery (inp : RunInput) : Option String :=
  match inp.suspectTxn with
  | some t => if t.merchant ≠ "" then some t.merchant else none
  | none => none

/-- Stage 3 (`kbLookup`): up to three guarded lookups, hits concatenated. -/
def stageKB (inp : RunInput) (st : OrchState) : OrchState :=
  let pr1 : List KBHit × OrchState :=
    match alertMerchantQuery inp with
    | some m =>
        runAgentStep { st with kbQueries := st.kbQueries ++ [m] } "kbLookup"
          (inp.kbSearch m) []
    | none => ([], st)
  let hits1 := pr1.1
  let st1 := pr1.2
  let pr2 : List KBHit × OrchState :=
    if nearDuplicates inp ≠ [] then
      runAgentStep { st1 with kbQueries := st1.kbQueries ++ ["pre-auth"] } "kbLookup"
        (inp.kbSearch "pre-auth") []
    else ([], st1)
  let hits2 := pr2.1
  let st2 := pr2.2
  -- `this.state.fraudReport?.recommendedAction` — read from the stage's
  -- input state: the two lookups above never write `fraudReport`.
  let pr3 : List KBHit × OrchState :=
    if (match st.fraudReport with
        | some r => r.recommendedAction
        | none => none) = some Action.OPEN_DISPUTE then
      runAgentStep { st2 with kbQueries := st2.kbQueries ++ ["dispute"] } "kbLookup"
        (inp.kbSearch "dispute") []
    else ([], st2)
  let hits3 := pr3.1
  let st3 := pr3.2
  { st3 with kbHits := hits1 ++ hits2 ++ hits3 }

/-- The pre-auth-vs-capture anchor stage 4 looks for. -/
def preAuthAnchor : String := "disputes:pre-auth-vs-capture"

/-- The fixed policy caveat appended to FREEZE_CARD reasons. -/
def otpSuffix : String := " (Policy: OTP may be required for unfreeze)"

/-- The reason template of the duplicate/pre-auth override (ride-share MCC
4121 gets bespoke phrasing; an absent subject interpolates as JS
`undefined`, though the override arm requires a non-empty duplicate list and
hence a subject). -/
def preauthReason (inp : RunInput) : String :=
  let m := match subjectTxn inp with | some t => t.merchant | none => "undefined"
  let kind :=
    if (match subjectTxn inp with | some t => t.mcc == "4121" | none => false) then
      "ride-sharing"
    else "this type of"
  s!"Two transactions detected: pre-authorization hold and final capture at {m}. This is normal for {kind} merchant. Not fraudulent."

/-- Stage 4's decision synthesis from the stored report and accumulated KB
hits.  The duplicate/pre-auth arm corresponds to the source's early
`finalizeRun(); return` (both paths finalize exactly once, directly after
the decision is set). -/
def decideFrom (inp : RunInput) (report : Option FraudReport) (kbHits : List KBHit) :
    Decision :=
  let finalAction :=
    match report with
    | some r => match r.recommendedAction with | some a => a | none => Action.NONE
    | none => Action.NONE
  let finalReason :=
    match report with
    | some r =>
        match r.reasons.head? with
        | some s => if s = "" then "No issues found." else s
        | none => "No issues found."
    | none => "No issues found."
  let finalReasonCode := match report with | some r => r.reasonCode | none => none
  let preAuthHit := kbHits.find? (fun h => h.anchor == preAuthAnchor)
  let disputeHits := kbHits.filter (fun h =>
    strStartsWith h.anchor "disputes:" || strContains (strLower h.title) "dispute")
  match nearDuplicates inp, preAuthHit with
  | d :: ds, some hit =>
      { action := .NONE,
        reason := preauthReason inp,
        reasonCode := finalReasonCode,
        citations := [hit],
        relatedTransactions :=
          some ((match subjectTxn inp with | some t => [t] | none => []) ++ (d :: ds)) }
  | _, _ =>
      let citations :=
        if finalAction = .OPEN_DISPUTE ∧ disputeHits ≠ [] then disputeHits else []
      let reason2 :=
        if finalAction = .FREEZE_CARD then finalReason ++ otpSuffix else finalReason
      { action := finalAction, reason := reason2, reasonCode := finalReasonCode,
        citations := citations, relatedTransactions := none }

/-- Stage 4: store the synthesized decision. -/
def stageDecide (inp : RunInput) (st : OrchState) : OrchState :=
  { st with finalDecision := some (decideFrom inp st.fraudReport st.kbHits) }

/-- `finalizeRun`: write `ended_at` (once) on the run record and dispatch
the terminal `decision_finalized` event — the error payload on the failure
path, the decision and risk on the success path. -/
def finalizeRun (st : OrchState) (failed : Bool) : OrchState :=
  let st1 := { st with endedAtWrites := st.endedAtWrites + 1 }
  if failed then pushEvent st1 (.decision_finalized true none none)
  else
    pushEvent st1
      (.decision_finalized false st1.finalDecision (st1.fraudReport.map (fun r => r.score)))

/-- The four pipeline stages of `run()` (everything inside the `try` before
`finalizeRun`). -/
def runStages (inp : RunInput) : OrchState :=
  stageDecide inp (stageKB inp (stageRisk inp (pushTrace OrchState.init "loadContext" true 0)))

/-- A complete successful run: stages then finalize. -/
def runModel (inp : RunInput) : OrchState :=
  finalizeRun (runStages inp) false

/-- The catch path of `run()`: an uncaught exception during stage execution
(§4.3's failure transition) leaves some prefix of the stage events already
published; the catch block then finalizes with the error payload and
re-raises.  `k` selects the fault point by the number of events published
before it. -/
def runFailed (inp : RunInput) (k : Nat) : OrchState :=
  let st := runStages inp
  finalizeRun { st with events := st.events.take k } true

/-- Stage 3's merchant-query hits (empty when the query is not issued). -/
def merchantHits (inp : RunInput) : List KBHit :=
  match alertMerchantQuery inp with
  | some m => (withTimeoutUsed (inp.kbSearch m) 1000 []).1
  | none => []

/-- Stage 3's pre-auth-query hits (empty when the query is not issued). -/
def preauthHits (inp : RunInput) : List KBHit :=
  if nearDuplicates inp ≠ [] then (withTimeoutUsed (inp.kbSearch "pre-auth") 1000 []).1
  else []

/-- Stage 3's dispute-query hits (empty when the query is not issued). -/
def disputeQueryHits (inp : RunInput) : List KBHit :=
  if (storedReport inp).recommendedAction = some Action.OPEN_DISPUTE then
    (withTimeoutUsed (inp.kbSearch "dispute") 1000 []).1
  else []

/-- The whole accumulated KB hit list of stage 3, in lookup order. -/
def accumulatedHits (inp : RunInput) : List KBHit :=
  merchantHits inp ++ preauthHits inp ++ disputeQueryHits inp

/-- The KB queries stage 3 issues, in order. -/
def issuedQueries (inp : RunInput) : List String :=
  (match alertMerchantQuery inp with | some m => [m] | none => []) ++
  (if nearDuplicates inp ≠ [] then ["pre-auth"] else []) ++
  (if (storedReport inp).recommendedAction = some Action.OPEN_DISPUTE then ["dispute"]
   else [])

/-- Invariant maintained by every stage operation: the step counter tracks
the trace count, trace sequence numbers are exactly `1..N` in order, the
run's `ended_at` has not yet been written, and no terminal event has been
published. -/
def Inv (st : OrchState) : Prop :=
  st.step = st.traces.length ∧
  st.traces.map (fun tr => tr.seq) = List.range' 1 st.traces.length ∧
  st.endedAtWrites = 0 ∧
  ∀ e ∈ st.events, isFinalEvent e = false

/-!  Concrete fixtures used by witnesses and counterexamples. -/

/-- A fixture customer. -/
def cust1 : Customer := ⟨"cust_1"⟩

/-- A benign transaction triggering no rule. -/
def benTxn : Transaction :=
  { id := "txn_b", mcc := "5411", merchant := "ABC Mart", amount_cents := 100,
    ts := 0, device_id := none, country := "IN", simulate_risk_timeout := false }

/-- A dispute case created at epoch 0. -/
def dCase : Case := { type := "DISPUTE", created_at := 0 }

/-- Scenario-C subject transaction (benign except for velocity). -/
def velTxn : Transaction :=
  { id := "txn_v0", mcc := "5411", merchant := "ABC Mart", amount_cents := 5000,
    ts := 1000000000, device_id := none, country := "US", simulate_risk_timeout := false }

/-- Scenario-C window: six transactions in the 5 minutes ending at the
subject's timestamp, triggering no other rule. -/
def velWindow : List Transaction :=
  [{ id := "txn_v1", mcc := "5411", merchant := "M1", amount_cents := 1000,
     ts := 999999000, device_id := none, country := "US", simulate_risk_timeout := false },
   { id := "txn_v2", mcc := "5411", merchant := "M2", amount_cents := 1000,
     ts := 999998000, device_id := none, country := "US", simulate_risk_timeout := false },
   { id := "txn_v3", mcc := "5411", merchant := "M3", amount_cents := 1000,
     ts := 999997000, device_id := none, country := "US", simulate_risk_timeout := false },
   { id := "txn_v4", mcc := "5411", merchant := "M4", amount_cents := 1000,
     ts := 999996000, device_id := none, country := "US", simulate_risk_timeout := false },
   { id := "txn_v5", mcc := "5411", merchant := "M5", amount_cents := 1000,
     ts := 999995000, device_id := none, country := "US", simulate_risk_timeout := false },
   { id := "txn_v6", mcc := "5411", merchant := "M6", amount_cents := 1000,
     ts := 999994000, device_id := none, country := "US", simulate_risk_timeout := false }]

/-- A subject transaction carrying the simulated-timeout flag. -/
def toTxn : Transaction :=
  { id := "txn_to", mcc := "5411", merchant := "ABC Mart", amount_cents := 100,
    ts := 0, device_id := none, country := "IN", simulate_risk_timeout := true }

/-- Run input whose subject carries the simulated-timeout flag. -/
def inpC2 : RunInput :=
  { alertId := "alert_2", suspectTxn := some toTxn, customer := cust1,
    recentTx := [toTxn], chargebackHistory := [], wallNow := 0,
    kbSearch := fun _ => .fulfils 5 [] }

/-- Pre-auth pair: the alert's suspect transaction. -/
def qTxn1 : Transaction :=
  { id := "txn_q1", mcc := "4121", merchant := "QuickCab", amount_cents := 2500,
    ts := 1000, device_id := none, country := "IN", simulate_risk_timeout := false }

/-- Pre-auth pair: the near-duplicate capture. -/
def qTxn2 : Transaction :=
  { id := "txn_q2", mcc := "4121", merchant := "QuickCab", amount_cents := 2510,
    ts := 900, device_id := none, country := "IN", simulate_risk_timeout := false }

/-- The pre-auth-vs-capture knowledge-base hit. -/
def preAuthHitEx : KBHit :=
  { docId := "kb_1", title := "Duplicate pending vs captured",
    anchor := "disputes:pre-auth-vs-capture",
    extract := "A pre-authorization hold and its capture can appear as two transactions." }

/-- Run input exercising the duplicate/pre-auth override. -/
def inpC6 : RunInput :=
  { alertId := "alert_6", suspectTxn := some qTxn1, customer := cust1,
    recentTx := [qTxn1, qTxn2], chargebackHistory := [], wallNow := 0,
    kbSearch := fun q =>
      if q == "pre-auth" then .fulfils 5 [preAuthHitEx] else .fulfils 5 [] }

/-- The decision the duplicate/pre-auth override produces on `inpC6`. -/
def dec6 : Decision :=
  { action := Action.NONE,
    reason := "Two transactions detected: pre-authorization hold and final capture at QuickCab. This is normal for ride-sharing merchant. Not fraudulent.",
    reasonCode := none,
    citations := [preAuthHitEx],
    relatedTransactions := some [qTxn1, qTxn2] }

/-- Run input with no alert transaction and an empty window. -/
def inpC8 : RunInput :=
  { alertId := "alert_8", suspectTxn := none, customer := cust1, recentTx := [],
    chargebackHistory := [], wallNow := 0, kbSearch := fun _ => .hangs }

/-- A benign window transaction with a merchant name. -/
def starTxn : Transaction :=
  { id := "txn_s1", mcc := "5812", merchant := "Starcoffee", amount_cents := 450,
    ts := 1000, device_id := none, country := "US", simulate_risk_timeout := false }

/-- Run input whose subject comes from the window (the alert carries no
suspect transaction). -/
def inpC9 : RunInput :=
  { alertId := "alert_9", suspectTxn := none, customer := cust1,
    recentTx := [starTxn], chargebackHistory := [], wallNow := 0,
    kbSearch := fun _ => .fulfils 5 [] }

/-!  Frame and characterization lemmas for the orchestrator model. -/

theorem runAgentStep_fst {T : Type} (st : OrchState) (name : String)
    (fb : FnBehavior T) (fallback : T) :
    (runAgentStep st name fb fallback).1 = (withTimeoutUsed fb 1000 fallback).1 := rfl

theorem runAgentStep_fraudReport {T : Type} (st : OrchState) (name : String)
    (fb : FnBehavior T) (fallback : T) :
    ((runAgentStep st name fb fallback).2).fraudReport = st.fraudReport := by
  simp only [runAgentStep, pushTrace, pushEvent]
  split <;> simp

theorem runAgentStep_kbHits {T : Type} (st : OrchState) (name : String)
    (fb : FnBehavior T) (fallback : T) :
    ((runAgentStep st name fb fallback).2).kbHits = st.kbHits := by
  simp only [runAgentStep, pushTrace, pushEvent]
  split <;> simp

theorem runAgentStep_kbQueries {T : Type} (st : OrchState) (name : String)
    (fb : FnBehavior T) (fallback : T) :
    ((runAgentStep st name fb fallback).2).kbQueries = st.kbQueries := by
  simp only [runAgentStep, pushTrace, pushEvent]
  split <;> simp

theorem runAgentStep_finalDecision {T : Type} (st : OrchState) (name : String)
    (fb : FnBehavior T) (fallback : T) :
    ((runAgentStep st name fb fallback).2).finalDecision = st.finalDecision := by
  simp only [runAgentStep, pushTrace, pushEvent]
  split <;> simp

theorem runAgentStep_endedAtWrites {T : Type} (st : OrchState) (name : String)
    (fb : FnBehavior T) (fallback : T) :
    ((runAgentStep st name fb fallback).2).endedAtWrites = st.endedAtWrites := by
  simp only [runAgentStep, pushTrace, pushEvent]
  split <;> simp

theorem runAgentStep_fallbackUsed {T : Type} (st : OrchState) (name : String)
    (fb : FnBehavior T) (fallback : T) :
    ((runAgentStep st name fb fallback).2).fallbackUsed =
      (st.fallbackUsed || (withTimeoutUsed fb 1000 fallback).2) := by
  simp only [runAgentStep, pushTrace, pushEvent]
  split <;> simp_all

theorem runAgentStep_events {T : Type} (st : OrchState) (name : String)
    (fb : FnBehavior T) (fallback : T) :
    ((runAgentStep st name fb fallback).2).events =
      st.events ++
        [Event.tool_update name (!(withTimeoutUsed fb 1000 fallback).2)
          (settleTime fb 1000)] := by
  simp only [runAgentStep, pushTrace, pushEvent]
  split <;> simp

theorem runAgentStep_traces {T : Type} (st : OrchState) (name : String)
    (fb : FnBehavior T) (fallback : T) :
    ((runAgentStep st name fb fallback).2).traces =
      st.traces ++
        [{ seq := st.step + 1, step := name,
           ok := !(withTimeoutUsed fb 1000 fallback).2,
           duration_ms := settleTime fb 1000 }] := by
  simp only [runAgentStep, pushTrace, pushEvent]
  split <;> simp

theorem runAgentStep_step {T : Type} (st : OrchState) (name : String)
    (fb : FnBehavior T) (fallback : T) :
    ((runAgentStep st name fb fallback).2).step = st.step + 1 := by
  simp only [runAgentStep, pushTrace, pushEvent]
  split <;> simp

theorem stageRisk_fraudReport (inp : RunInput) (st : OrchState) :
    (stageRisk inp st).fraudReport = some (storedReport inp) := by
  unfold stageRisk storedReport
  cases hs : subjectTxn inp with
  | none => simp [pushTrace]
  | some txn =>
      simp only
      split <;> simp [runAgentStep_fraudReport, runAgentStep_fst]

theorem stageRisk_kbHits (inp : RunInput) (st : OrchState) :
    (stageRisk inp st).kbHits = st.kbHits := by
  unfold stageRisk
  cases hs : subjectTxn inp with
  | none => simp [pushTrace]
  | some txn => simp only; split <;> simp [runAgentStep_kbHits]

theorem stageRisk_kbQueries (inp : RunInput) (st : OrchState) :
    (stageRisk inp st).kbQueries = st.kbQueries := by
  unfold stageRisk
  cases hs : subjectTxn inp with
  | none => simp [pushTrace]
  | some txn => simp only; split <;> simp [runAgentStep_kbQueries]

theorem stageRisk_finalDecision (inp : RunInput) (st : OrchState) :
    (stageRisk inp st).finalDecision = st.finalDecision := by
  unfold stageRisk
  cases hs : subjectTxn inp with
  | none => simp [pushTrace]
  | some txn => simp only; split <;> simp [runAgentStep_finalDecision]

theorem stageRisk_endedAtWrites (inp : RunInput) (st : OrchState) :
    (stageRisk inp st).endedAtWrites = st.endedAtWrites := by
  unfold stageRisk
  cases hs : subjectTxn inp with
  | none => simp [pushTrace]
  | some txn => simp only; split <;> simp [runAgentStep_endedAtWrites]

theorem stageKB_fraudReport (inp : RunInput) (st : OrchState) :
    (stageKB inp st).fraudReport = st.fraudReport := by
  unfold stageKB
  cases hq : alertMerchantQuery inp <;> simp only [hq] <;>
    split <;> split <;> simp [runAgentStep_fraudReport]

theorem stageKB_finalDecision (inp : RunInput) (st : OrchState) :
    (stageKB inp st).finalDecision = st.finalDecision := by
  unfold stageKB
  cases hq : alertMerchantQuery inp <;> simp only [hq] <;>
    split <;> split <;> simp [runAgentStep_finalDecision]

theorem stageKB_endedAtWrites (inp : RunInput) (st : OrchState) :
    (stageKB inp st).endedAtWrites = st.endedAtWrites := by
  unfold stageKB
  cases hq : alertMerchantQuery inp <;> simp only [hq] <;>
    split <;> split <;> simp [runAgentStep_endedAtWrites]

theorem stageKB_kbHits (inp : RunInput) (st : OrchState) (r : FraudReport)
    (h : st.fraudReport = some r) :
    (stageKB inp st).kbHits =
      merchantHits inp ++ preauthHits inp ++
        (if r.recommendedAction = some Action.OPEN_DISPUTE then
          (withTimeoutUsed (inp.kbSearch "dispute") 1000 []).1
         else []) := by
  unfold stageKB merchantHits preauthHits
  cases hq : alertMerchantQuery inp <;> simp only [hq, h] <;>
    split <;> split <;> simp [runAgentStep_fst, runAgentStep_kbHits]

theorem stageKB_kbQueries (inp : RunInput) (st : OrchState) (r : FraudReport)
    (h : st.fraudReport = some r) :
    (stageKB inp st).kbQueries =
      st.kbQueries ++
        ((match alertMerchantQuery inp with | some m => [m] | none => []) ++
         (if nearDuplicates inp ≠ [] then ["pre-auth"] else []) ++
         (if r.recommendedAction = some Action.OPEN_DISPUTE then ["dispute"] else [])) := by
  unfold stageKB
  cases hq : alertMerchantQuery inp <;> simp only [hq, h] <;>
    split <;> split <;> simp [runAgentStep_kbQueries]

theorem stageKB_fallbackUsed_true (inp : RunInput) (st : OrchState)
    (h : st.fallbackUsed = true) : (stageKB inp st).fallbackUsed = true := by
  unfold stageKB
  cases hq : alertMerchantQuery inp <;> simp only [hq] <;>
    split <;> split <;> simp [runAgentStep_fallbackUsed, h]

theorem stageDecide_finalDecision (inp : RunInput) (st : OrchState) :
    (stageDecide inp st).finalDecision =
      some (decideFrom inp st.fraudReport st.kbHits) := rfl

theorem stageDecide_fraudReport (inp : RunInput) (st : OrchState) :
    (stageDecide inp st).fraudReport = st.fraudReport := rfl

theorem stageDecide_kbHits (inp : RunInput) (st : OrchState) :
    (stageDecide inp st).kbHits = st.kbHits := rfl

theorem stageDecide_kbQueries (inp : RunInput) (st : OrchState) :
    (stageDecide inp st).kbQueries = st.kbQueries := rfl

theorem stageDecide_fallbackUsed (inp : RunInput) (st : OrchState) :
    (stageDecide inp st).fallbackUsed = st.fallbackUsed := rfl

theorem stageDecide_endedAtWrites (inp : RunInput) (st : OrchState) :
    (stageDecide inp st).endedAtWrites = st.endedAtWrites := rfl

theorem finalizeRun_fraudReport (st : OrchState) (failed : Bool) :
    (finalizeRun st failed).fraudReport = st.fraudReport := by
  unfold finalizeRun
  split <;> simp [pushEvent]

theorem finalizeRun_finalDecision (st : OrchState) (failed : Bool) :
    (finalizeRun st failed).finalDecision = st.finalDecision := by
  unfold finalizeRun
  split <;> simp [pushEvent]

theorem finalizeRun_fallbackUsed (st : OrchState) (failed : Bool) :
    (finalizeRun st failed).fallbackUsed = st.fallbackUsed := by
  unfold finalizeRun
  split <;> simp [pushEvent]

theorem finalizeRun_kbQueries (st : OrchState) (failed : Bool) :
    (finalizeRun st failed).kbQueries = st.kbQueries := by
  unfold finalizeRun
  split <;> simp [pushEvent]

theorem finalizeRun_kbHits (st : OrchState) (failed : Bool) :
    (finalizeRun st failed).kbHits = st.kbHits := by
  unfold finalizeRun
  split <;> simp [pushEvent]

theorem finalizeRun_traces (st : OrchState) (failed : Bool) :
    (finalizeRun st failed).traces = st.traces := by
  unfold finalizeRun
  split <;> simp [pushEvent]

theorem finalizeRun_step (st : OrchState) (failed : Bool) :
    (finalizeRun st failed).step = st.step := by
  unfold finalizeRun
  split <;> simp [pushEvent]

theorem finalizeRun_endedAtWrites (st : OrchState) (failed : Bool) :
    (finalizeRun st failed).endedAtWrites = st.endedAtWrites + 1 := by
  unfold finalizeRun
  split <;> simp [pushEvent]

theorem finalizeRun_events (st : OrchState) (failed : Bool) :
    (finalizeRun st failed).events =
      st.events ++
        [if failed then Event.decision_finalized true none none
         else
           Event.decision_finalized false st.finalDecision
             (st.fraudReport.map (fun r => r.score))] := by
  unfold finalizeRun
  split <;> simp [pushEvent]

theorem inv_init : Inv OrchState.init := by
  refine ⟨rfl, rfl, rfl, ?_⟩
  intro e he
  simp [OrchState.init] at he

theorem seq_concat (l : List TraceEntry) (e : TraceEntry)
    (h : l.map (fun tr => tr.seq) = List.range' 1 l.length)
    (he : e.seq = l.length + 1) :
    (l ++ [e]).map (fun tr => tr.seq) = List.range' 1 (l ++ [e]).length := by
  simp [h, he, List.range'_concat, Nat.add_comm]

theorem inv_pushTrace {st : OrchState} (h : Inv st) (name : String) (ok : Bool)
    (dur : Nat) : Inv (pushTrace st name ok dur) := by
  obtain ⟨h1, h2, h3, h4⟩ := h
  refine ⟨?_, ?_, h3, h4⟩
  · simp [pushTrace, h1]
  · have hc := seq_concat st.traces
      { seq := st.step + 1, step := name, ok := ok, duration_ms := dur } h2 (by simp [h1])
    simpa [pushTrace] using hc

theorem inv_runAgentStep {T : Type} {st : OrchState} (h : Inv st) (name : String)
    (fb : FnBehavior T) (fallback : T) : Inv (runAgentStep st name fb fallback).2 := by
  obtain ⟨h1, h2, h3, h4⟩ := h
  refine ⟨?_, ?_, ?_, ?_⟩
  · rw [runAgentStep_step, runAgentStep_traces]; simp [h1]
  · rw [runAgentStep_traces]
    exact seq_concat st.traces
      { seq := st.step + 1, step := name, ok := !(withTimeoutUsed fb 1000 fallback).2,
        duration_ms := settleTime fb 1000 } h2 (by simp [h1])
  · rw [runAgentStep_endedAtWrites]; exact h3
  · rw [runAgentStep_events]
    intro e he
    rcases List.mem_append.mp he with hm | hm
    · exact h4 e hm
    · simp only [List.mem_singleton] at hm
      subst hm
      rfl

theorem inv_stageRisk (inp : RunInput) {st : OrchState} (h : Inv st) :
    Inv (stageRisk inp st) := by
  unfold stageRisk
  cases hs : subjectTxn inp with
  | none => exact inv_pushTrace h _ _ _
  | some txn =>
      simp only
      split
      · exact inv_runAgentStep h _ _ _
      · exact inv_runAgentStep h _ _ _

theorem inv_stageKB (inp : RunInput) {st : OrchState} (h : Inv st) :
    Inv (stageKB inp st) := by
  unfold stageKB
  cases hq : alertMerchantQuery inp <;> simp only [hq] <;>
    split <;> split <;>
    solve_by_elim [inv_runAgentStep]

theorem inv_stageDecide (inp : RunInput) {st : OrchState} (h : Inv st) :
    Inv (stageDecide inp st) := h

theorem runStages_inv (inp : RunInput) : Inv (runStages inp) :=
  inv_stageDecide inp (inv_stageKB inp (inv_stageRisk inp (inv_pushTrace inv_init _ _ _)))

theorem runStages_fraudReport (inp : RunInput) :
    (runStages inp).fraudReport = some (storedReport inp) := by
  unfold runStages
  rw [stageDecide_fraudReport, stageKB_fraudReport, stageRisk_fraudReport]

theorem runStages_kbHits (inp : RunInput) :
    (runStages inp).kbHits = accumulatedHits inp := by
  unfold runStages accumulatedHits disputeQueryHits
  rw [stageDecide_kbHits,
    stageKB_kbHits inp _ (storedReport inp) (stageRisk_fraudReport inp _)]

theorem runStages_kbQueries (inp : RunInput) :
    (runStages inp).kbQueries = issuedQueries inp := by
  unfold runStages issuedQueries
  rw [stageDecide_kbQueries,
    stageKB_kbQueries inp _ (storedReport inp) (stageRisk_fraudReport inp _),
    stageRisk_kbQueries]
  simp [pushTrace, OrchState.init]

theorem runStages_finalDecision (inp : RunInput) :
    (runStages inp).finalDecision =
      some (decideFrom inp (some (storedReport inp)) (accumulatedHits inp)) := by
  unfold runStages
  rw [stageDecide_finalDecision,
    stageKB_fraudReport, stageRisk_fraudReport,
    stageKB_kbHits inp _ (storedReport inp) (stageRisk_fraudReport inp _)]
  unfold accumulatedHits disputeQueryHits
  rfl

theorem analyze_noFlag (txs : List Transaction) (t : Transaction) (c : Customer)
    (hist : List Case) (wallNow : Int) (hflag : t.simulate_risk_timeout = false) :
    (analyze txs t c hist wallNow).2 =
      finalReport (analyzeCore txs t hist wallNow).1
        (analyzeCore txs t hist wallNow).2 t := by
  simp [analyze, hflag, analyzeReport]

/-- Claim C1: without the simulated-timeout flag, the returned report
follows the tally thresholds exactly.  Tally at least 60: HIGH and
FREEZE_CARD.  Tally in [30,60): MEDIUM, reason code "10.4", and
OPEN_DISPUTE exactly when the amount exceeds 100000 cents or the tally is
at least 40, else FREEZE_CARD.  Tally below 30: LOW, and OPEN_DISPUTE with
reason code "13.7" when the subscription heuristic fired, else NONE. -/
theorem claim1_thresholds (txs : List Transaction) (t : Transaction) (c : Customer)
    (hist : List Case) (wallNow : Int) (hflag : t.simulate_risk_timeout = false) :
    (60 ≤ (analyzeCore txs t hist wallNow).1 →
      (analyze txs t c hist wallNow).2.score = Score.HIGH ∧
      (analyze txs t c hist wallNow).2.recommendedAction = some Action.FREEZE_CARD) ∧
    (30 ≤ (analyzeCore txs t hist wallNow).1 ∧ (analyzeCore txs t hist wallNow).1 < 60 →
      (analyze txs t c hist wallNow).2.score = Score.MEDIUM ∧
      (analyze txs t c hist wallNow).2.reasonCode = some "10.4" ∧
      (analyze txs t c hist wallNow).2.recommendedAction =
        some (if 100000 < t.amount_cents ∨ 40 ≤ (analyzeCore txs t hist wallNow).1 then
          Action.OPEN_DISPUTE
        else Action.FREEZE_CARD)) ∧
    ((analyzeCore txs t hist wallNow).1 < 30 →
      (analyze txs t c hist wallNow).2.score = Score.LOW ∧
      (analyze txs t c hist wallNow).2.recommendedAction =
        some (if isLikelySubscriptionFlag (analyzeCore txs t hist wallNow).2 then
          Action.OPEN_DISPUTE
        else Action.NONE) ∧
      (analyze txs t c hist wallNow).2.reasonCode =
        (if isLikelySubscriptionFlag (analyzeCore txs t hist wallNow).2 then some "13.7"
         else none)) := by
  rw [analyze_noFlag txs t c hist wallNow hflag]
  refine ⟨fun h => ?_, fun h => ?_, fun h => ?_⟩
  · unfold finalReport
    rw [if_pos (by omega)]
    exact ⟨rfl, rfl⟩
  · unfold finalReport
    rw [if_neg (by omega), if_pos (by omega)]
    exact ⟨rfl, rfl, rfl⟩
  · unfold finalReport
    rw [if_neg (by omega), if_neg (by omega)]
    exact ⟨rfl, rfl, rfl⟩

theorem claim1_thresholds_witness :
    (analyzeCore [] benTxn [] 0).1 < 30 ∧
    (analyze [] benTxn cust1 [] 0).2.score = Score.LOW ∧
    (analyze [] benTxn cust1 [] 0).2.recommendedAction = some Action.NONE := by
  have h := (claim1_thresholds [] benTxn cust1 [] 0 rfl).2.2 (by decide)
  refine ⟨by decide, h.1, ?_⟩
  rw [h.2.1]
  decide

/-- Claim C3 counterexample: six transactions in the 5-minute window ending
at the subject's timestamp, with no other rule firing, give a tally of 50 —
not at least 60 — so `analyze` returns MEDIUM, not HIGH, and OPEN_DISPUTE,
not FREEZE_CARD. -/
theorem claim3_cex :
    count5m velWindow velTxn.ts = 6 ∧
    (analyzeCore velWindow velTxn [] 0).1 = 50 ∧
    (analyze velWindow velTxn cust1 [] 0).2.score = Score.MEDIUM ∧
    (analyze velWindow velTxn cust1 [] 0).2.score ≠ Score.HIGH ∧
    (analyze velWindow velTxn cust1 [] 0).2.recommendedAction ≠
      some Action.FREEZE_CARD := by
  decide

/-- Claim C3 as amended: with six transactions in the 5-minute window and
no other rule firing, the velocity rule contributes 50, the tally is 50 —
inside [30,60) — so `analyze` returns MEDIUM with OPEN_DISPUTE (as 50 ≥ 40)
and reason code "10.4". -/
theorem claim3_amended (txs : List Transaction) (t : Transaction) (c : Customer)
    (wallNow : Int)
    (hflag : t.simulate_risk_timeout = false)
    (h5 : count5m txs t.ts = 6)
    (h1h : ¬ count1h txs t.ts > 10)
    (h24 : ¬ count24h txs t.ts > 30)
    (hamt : ¬ t.amount_cents > 100000)
    (hdev : deviceChangeSuspected txs t = false)
    (hgeo : ¬ (countries24h txs t).length ≥ 3)
    (hmcc : riskyMCC t.mcc = none)
    (hhome : t.country = homeCountry txs)
    (hamb : ambiguousMerchant t.merchant = false) :
    (analyzeCore txs t [] wallNow).1 = 50 ∧
    (analyze txs t c [] wallNow).2.score = Score.MEDIUM ∧
    (analyze txs t c [] wallNow).2.recommendedAction = some Action.OPEN_DISPUTE ∧
    (analyze txs t c [] wallNow).2.reasonCode = some "10.4" := by
  have hcore : (analyzeCore txs t [] wallNow).1 = 50 := by
    unfold analyzeCore
    simp only [h5, h1h, h24, hamt, hdev, hgeo, hmcc, hhome, hamb, addRule]
    norm_num
    split <;> split <;> simp
  have hrep := analyze_noFlag txs t c [] wallNow hflag
  refine ⟨hcore, ?_, ?_, ?_⟩ <;>
    rw [hrep] <;>
    unfold finalReport <;>
    rw [hcore, if_neg (by omega), if_pos (by omega)] <;>
    simp

theorem claim3_amended_witness :
    (analyzeCore velWindow velTxn [] 0).1 = 50 ∧
    (analyze velWindow velTxn cust1 [] 0).2.score = Score.MEDIUM := by
  have h := claim3_amended velWindow velTxn cust1 0 rfl (by decide) (by decide)
    (by decide) (by decide) (by decide) (by decide) (by decide) (by decide) (by decide)
  exact ⟨h.1, h.2.1⟩

/-- Claim C5: the guardrail combinator always resolves (never rejects),
resolves exactly once with the first resolution, takes the stage result
when the stage fulfils before the timer, and takes the fallback when the
timer fires first or the stage rejects or hangs. -/
theorem claim5_withTimeout {T : Type} (fb : FnBehavior T) (ms : Nat) (fallback : T) :
    resolveCalls fb ms fallback ≠ [] ∧
    (resolveCalls fb ms fallback).head? = some (withTimeout fb ms fallback) ∧
    (∀ t v, fb = FnBehavior.fulfils t v → t < ms → withTimeout fb ms fallback = v) ∧
    (∀ t v, fb = FnBehavior.fulfils t v → ¬ t < ms →
      withTimeout fb ms fallback = fallback) ∧
    (∀ t, fb = FnBehavior.rejects t → withTimeout fb ms fallback = fallback) ∧
    (fb = FnBehavior.hangs → withTimeout fb ms fallback = fallback) := by
  refine ⟨?_, ?_, ?_, ?_, ?_, ?_⟩
  · cases fb <;> simp only [resolveCalls] <;> (try split) <;> simp
  · cases fb <;> simp only [resolveCalls, withTimeout] <;> (try split) <;> simp
  · intro t v hfb hlt
    subst hfb
    simp [withTimeout, hlt]
  · intro t v hfb hge
    subst hfb
    simp [withTimeout, hge]
  · intro t hfb
    subst hfb
    simp [withTimeout]
  · intro hfb
    subst hfb
    simp [withTimeout]

theorem claim5_withTimeout_witness :
    withTimeout (FnBehavior.fulfils 1 (42 : Nat)) 1000 7 = 42 ∧
    withTimeout (FnBehavior.rejects 1) 1000 (7 : Nat) = 7 := by
  refine ⟨(claim5_withTimeout (FnBehavior.fulfils 1 (42 : Nat)) 1000 7).2.2.1 1 42 rfl
    (by decide), ?_⟩
  exact (claim5_withTimeout (FnBehavior.rejects 1) 1000 (7 : Nat)).2.2.2.2.1 1 rfl

/-- Claim C7 counterexample: `analyze` is not wall-clock independent — the
chargeback-history rule compares case creation times against `Date.now()`,
so the same input analysed at two different wall-clock instants yields
different reports (here the 90-day dispute window moves past the case). -/
theorem claim7_cex :
    (analyze [] benTxn cust1 [dCase] 1000).2 ≠
      (analyze [] benTxn cust1 [dCase] 10000000000000).2 := by
  decide

/-- Claim C7 as amended: `analyze` is a pure function of its arguments plus
the current wall-clock instant, and the wall clock enters only through the
90-day recent-dispute count of the chargeback-history rule: two evaluations
at wall times with equal recent-dispute counts (in particular, any two
evaluations with empty dispute history) return identical reports. -/
theorem claim7_amended (txs : List Transaction) (t : Transaction) (c : Customer)
    (hist : List Case) (t1 t2 : Int)
    (h : recentDisputeCount hist t1 = recentDisputeCount hist t2) :
    analyze txs t c hist t1 = analyze txs t c hist t2 := by
  simp only [analyze, analyzeReport, analyzeCore, h]

theorem claim7_amended_witness :
    analyze [] benTxn cust1 [] 0 = analyze [] benTxn cust1 [] 5 :=
  claim7_amended [] benTxn cust1 [] 0 5 (by decide)

theorem storedReport_flag (inp : RunInput) (txn : Transaction)
    (hs : subjectTxn inp = some txn) (hf : txn.simulate_risk_timeout = true) :
    storedReport inp = engineTimeoutFallback := by
  unfold storedReport
  rw [hs]
  simp [fraudBehavior, analyze, hf, withTimeoutUsed]

theorem stageRisk_fallbackUsed_flag (inp : RunInput) (st : OrchState)
    (txn : Transaction) (hs : subjectTxn inp = some txn)
    (hf : txn.simulate_risk_timeout = true) :
    (stageRisk inp st).fallbackUsed = true := by
  simp [stageRisk, hs, runAgentStep_fst, fraudBehavior, analyze, hf, withTimeoutUsed,
    engineTimeoutFallback]

theorem stageRisk_fallbackUsed_noSubject (inp : RunInput) (st : OrchState)
    (hs : subjectTxn inp = none) : (stageRisk inp st).fallbackUsed = true := by
  simp [stageRisk, hs, pushTrace]

theorem runModel_events (inp : RunInput) :
    (runModel inp).events =
      (runStages inp).events ++
        [Event.decision_finalized false (runStages inp).finalDecision
          ((runStages inp).fraudReport.map (fun r => r.score))] := by
  rw [runModel, finalizeRun_events]
  simp

theorem runFailed_events (inp : RunInput) (k : Nat) :
    (runFailed inp k).events =
      (runStages inp).events.take k ++ [Event.decision_finalized true none none] := by
  simp [runFailed, finalizeRun_events]

/-- Claim C2 counterexample: with the simulated-timeout flag, `analyze`
settles after 100 ms — well within the caller's 1-second guardrail budget —
with its own fallback report, so the guardrail wrapper never substitutes
its fallback value, and the run records the engine's report (OPEN_DISPUTE),
not the orchestrator's stage-2 fallback (NONE). -/
theorem claim2_cex :
    (analyze inpC2.recentTx toTxn inpC2.customer inpC2.chargebackHistory
      inpC2.wallNow).1 = 100 ∧
    (100 : Nat) < 1000 ∧
    (withTimeoutUsed (fraudBehavior inpC2 toTxn) 1000 riskFallback).2 = false ∧
    (runModel inpC2).fraudReport = some engineTimeoutFallback ∧
    engineTimeoutFallback ≠ riskFallback ∧
    engineTimeoutFallback.recommendedAction = some Action.OPEN_DISPUTE ∧
    riskFallback.recommendedAction = some Action.NONE := by
  decide

/-- Claim C2 as amended: under the simulated-timeout flag the engine itself
settles after 100 ms with its own MEDIUM/OPEN_DISPUTE fallback report
(fallback_used = true); the caller's guardrail never fires, the run records
the engine's fallback report — which is MEDIUM, never a HIGH or LOW result
of the real rules — and the sticky fallback flag is set. -/
theorem claim2_amended (inp : RunInput) (txn : Transaction)
    (hs : subjectTxn inp = some txn) (hf : txn.simulate_risk_timeout = true) :
    analyze inp.recentTx txn inp.customer inp.chargebackHistory inp.wallNow =
      (100, engineTimeoutFallback) ∧
    (100 : Nat) < 1000 ∧
    storedReport inp = engineTimeoutFallback ∧
    (runModel inp).fraudReport = some engineTimeoutFallback ∧
    (runModel inp).fallbackUsed = true ∧
    engineTimeoutFallback.score = Score.MEDIUM ∧
    engineTimeoutFallback.fallback_used = some true ∧
    engineTimeoutFallback ≠ riskFallback := by
  have hst := storedReport_flag inp txn hs hf
  refine ⟨by simp [analyze, hf], by omega, hst, ?_, ?_, rfl, rfl, by decide⟩
  · rw [runModel, finalizeRun_fraudReport, runStages_fraudReport, hst]
  · rw [runModel, finalizeRun_fallbackUsed, runStages, stageDecide_fallbackUsed]
    exact stageKB_fallbackUsed_true inp _ (stageRisk_fallbackUsed_flag inp _ txn hs hf)

theorem claim2_amended_witness :
    storedReport inpC2 = engineTimeoutFallback ∧
    (runModel inpC2).fallbackUsed = true := by
  have h := claim2_amended inpC2 toTxn (by decide) (by decide)
  exact ⟨h.2.2.1, h.2.2.2.2.1⟩

/-- Claim C4: every run publishes exactly one `decision_finalized` event,
that event is the last event of the run, and `ended_at` is written exactly
once, at finalize — on the success path and on every stage-failure path
(modelled by an exception after any prefix of the stage events). -/
theorem claim4_terminal (inp : RunInput) (k : Nat) :
    ((runModel inp).events.filter isFinalEvent).length = 1 ∧
    (∃ e, (runModel inp).events.getLast? = some e ∧ isFinalEvent e = true) ∧
    (runModel inp).endedAtWrites = 1 ∧
    ((runFailed inp k).events.filter isFinalEvent).length = 1 ∧
    (∃ e, (runFailed inp k).events.getLast? = some e ∧ isFinalEvent e = true) ∧
    (runFailed inp k).endedAtWrites = 1 := by
  obtain ⟨h1, h2, h3, h4⟩ := runStages_inv inp
  have hnil : (runStages inp).events.filter isFinalEvent = [] :=
    List.filter_eq_nil_iff.mpr (fun e he => by simp [h4 e he])
  have hniltake : ((runStages inp).events.take k).filter isFinalEvent = [] :=
    List.filter_eq_nil_iff.mpr (fun e he => by simp [h4 e (List.take_subset k _ he)])
  refine ⟨?_, ?_, ?_, ?_, ?_, ?_⟩
  · rw [runModel_events, List.filter_append, hnil]
    simp [isFinalEvent]
  · refine ⟨Event.decision_finalized false (runStages inp).finalDecision
      ((runStages inp).fraudReport.map (fun r => r.score)), ?_, rfl⟩
    rw [runModel_events]
    exact List.getLast?_concat _
  · rw [runModel, finalizeRun_endedAtWrites, h3]
  · rw [runFailed_events, List.filter_append, hniltake]
    simp [isFinalEvent]
  · refine ⟨Event.decision_finalized true none none, ?_, rfl⟩
    rw [runFailed_events]
    exact List.getLast?_concat _
  · simp [runFailed, finalizeRun_endedAtWrites, h3]

/-- Claim C6: when a near-duplicate transaction exists and the accumulated
KB hits contain the pre-auth-vs-capture anchor, the final decision is
forced to NONE regardless of the fraud report's recommendation, its
citations are exactly that (first such) hit, its related transactions are
the subject prepended to the duplicate list, and no later refinement
(dispute-citation enrichment, freeze annotation) is applied. -/
theorem claim6_preauth_override (inp : RunInput) (hit : KBHit)
    (hd : nearDuplicates inp ≠ [])
    (hh : (accumulatedHits inp).find? (fun h => h.anchor == preAuthAnchor) = some hit) :
    (runModel inp).finalDecision =
      some { action := Action.NONE,
             reason := preauthReason inp,
             reasonCode := (storedReport inp).reasonCode,
             citations := [hit],
             relatedTransactions :=
               some ((match subjectTxn inp with | some t => [t] | none => []) ++
                 nearDuplicates inp) } := by
  obtain ⟨d, ds, hdd⟩ := List.exists_cons_of_ne_nil hd
  rw [runModel, finalizeRun_finalDecision, runStages_finalDecision]
  unfold decideFrom
  simp only [hdd, hh]

theorem claim6_preauth_override_witness :
    (runModel inpC6).finalDecision = some dec6 := by
  have h := claim6_preauth_override inpC6 preAuthHitEx (by decide) (by decide)
  rw [h]
  decide

/-- Claim C8: when neither the alert nor the window yields a subject
transaction, the orchestrator skips the engine, synthesizes the LOW/NONE
no-data report, sets the sticky fallback flag, issues no KB queries, and
the pipeline still finalizes successfully with the terminal event last. -/
theorem claim8_no_subject (inp : RunInput) (h1 : inp.suspectTxn = none)
    (h2 : inp.recentTx = []) :
    (runModel inp).fraudReport = some noDataReport ∧
    (runModel inp).fallbackUsed = true ∧
    (runModel inp).kbQueries = [] ∧
    (runModel inp).finalDecision =
      some { action := Action.NONE, reason := "No transaction data available",
             reasonCode := none, citations := [], relatedTransactions := none } ∧
    (runModel inp).events.getLast? =
      some (Event.decision_finalized false
        (some { action := Action.NONE, reason := "No transaction data available",
                reasonCode := none, citations := [], relatedTransactions := none })
        (some Score.LOW)) ∧
    ((runModel inp).events.filter isFinalEvent).length = 1 := by
  have hsubj : subjectTxn inp = none := by simp [subjectTxn, h1, h2]
  have hstored : storedReport inp = noDataReport := by simp [storedReport, hsubj]
  have hnd : nearDuplicates inp = [] := by simp [nearDuplicates, hsubj]
  have hamq : alertMerchantQuery inp = none := by simp [alertMerchantQuery, h1]
  have hacc : accumulatedHits inp = [] := by
    simp [accumulatedHits, merchantHits, preauthHits, disputeQueryHits, hamq, hnd,
      hstored, noDataReport]
  have hdec : decideFrom inp (some (storedReport inp)) (accumulatedHits inp) =
      { action := Action.NONE, reason := "No transaction data available",
        reasonCode := none, citations := [], relatedTransactions := none } := by
    rw [hstored, hacc]
    unfold decideFrom
    rw [hnd]
    rfl
  obtain ⟨g1, g2, g3, g4⟩ := runStages_inv inp
  have hnil : (runStages inp).events.filter isFinalEvent = [] :=
    List.filter_eq_nil_iff.mpr (fun e he => by simp [g4 e he])
  refine ⟨?_, ?_, ?_, ?_, ?_, ?_⟩
  · rw [runModel, finalizeRun_fraudReport, runStages_fraudReport, hstored]
  · rw [runModel, finalizeRun_fallbackUsed, runStages, stageDecide_fallbackUsed]
    exact stageKB_fallbackUsed_true inp _ (stageRisk_fallbackUsed_noSubject inp _ hsubj)
  · rw [runModel, finalizeRun_kbQueries, runStages_kbQueries]
    unfold issuedQueries
    rw [hamq, hnd, hstored]
    decide
  · rw [runModel, finalizeRun_finalDecision, runStages_finalDecision, hdec]
  · rw [runModel_events, runStages_finalDecision, hdec, runStages_fraudReport, hstored,
      List.getLast?_concat]
    rfl
  · rw [runModel_events, List.filter_append, hnil]
    simp [isFinalEvent]

theorem claim8_no_subject_witness :
    (runModel inpC8).fraudReport = some noDataReport ∧
    (runModel inpC8).fallbackUsed = true ∧
    (runModel inpC8).kbQueries = [] := by
  have h := claim8_no_subject inpC8 rfl rfl
  exact ⟨h.1, h.2.1, h.2.2.1⟩

/-- Claim C9 counterexample: when the alert carries no linked transaction,
the subject transaction is drawn from the window and has a (non-empty)
merchant, yet no merchant-name lookup is issued: the code keys the merchant
query on `alert.suspect_txn?.merchant`, not on the subject transaction. -/
theorem claim9_cex :
    subjectTxn inpC9 = some starTxn ∧
    starTxn.merchant = "Starcoffee" ∧
    (runModel inpC9).kbQueries = [] := by
  decide

/-- Claim C9 as amended: the merchant-name lookup is issued exactly when
the alert's linked suspect transaction exists with a non-empty merchant
(not whenever the subject transaction has one); the fixed "pre-auth" lookup
exactly when a near-duplicate exists (unbounded in time); the fixed
"dispute" lookup exactly when the stored report recommends OPEN_DISPUTE;
the hits of the triggered lookups are concatenated in that order without
deduplication, each lookup individually guarded with an empty-list
fallback. -/
theorem claim9_amended (inp : RunInput) :
    (runModel inp).kbQueries = issuedQueries inp ∧
    (runModel inp).kbHits = accumulatedHits inp := by
  rw [runModel, finalizeRun_kbQueries, finalizeRun_kbHits]
  exact ⟨runStages_kbQueries inp, runStages_kbHits inp⟩

/-- Claim C10: the trace sequence numbers of a run are exactly `1..N`,
contiguous and strictly increasing in write order, where N is the final
step-counter value — the number of stage invocations that wrote a trace. -/
theorem claim10_trace_seq (inp : RunInput) :
    (runModel inp).traces.map (fun tr => tr.seq) =
      List.range' 1 (runModel inp).traces.length ∧
    (runModel inp).traces.length = (runModel inp).step := by
  obtain ⟨h1, h2, h3, h4⟩ := runStages_inv inp
  rw [runModel, finalizeRun_traces, finalizeRun_step]
  exact ⟨h2, h1.symm⟩

end Sentinel
